import Mathlib

/-!
Shallow embedding of the billing core of `src/main.py`
(class `BillingCalculator`): the eligibility filter and inner join
(`load_data`), the aggregator and pricing dispatch (`calculate_billing`,
`_calculate_company_billing`), and the run boundary
(`run_billing_process`).  Monetary arithmetic is modelled over `ℚ`
(the source uses Python floats on decimal constants; the spec demands
decimal-accurate arithmetic).  Call counts are `ℕ`.
-/

namespace Billing

/-- A parsed timestamp; only the year and month are consulted by the
filter in `load_data`. -/
structure Timestamp where
  year : Nat
  month : Nat
  deriving DecidableEq

deriving instance DecidableEq for Except

/-- One row of the `apicall` table as stored: the `date_api_call` field is
the outcome of the external datetime parse (`pd.to_datetime` in
`load_data`), which either yields a timestamp or raises. -/
structure RawApiCall where
  commerce_id : String
  date_api_call : Except String Timestamp
  ask_status : String
  deriving DecidableEq

/-- One row of the `apicall` table after the datetime conversion. -/
structure ApiCall where
  commerce_id : String
  date_api_call : Timestamp
  ask_status : String
  deriving DecidableEq

/-- One row of the `commerce` table. -/
structure Commerce where
  commerce_id : String
  commerce_name : String
  commerce_status : String
  commerce_nit : String
  commerce_email : String
  deriving DecidableEq

/-- The two tables read from the SQLite database. -/
structure Db where
  apicall : List RawApiCall
  commerce : List Commerce
  deriving DecidableEq

/-- One row of the merged DataFrame produced by `pd.merge(..., on="commerce_id",
how="inner")` in `load_data`. -/
structure MergedRow where
  commerce_id : String
  date_api_call : Timestamp
  ask_status : String
  commerce_name : String
  commerce_nit : String
  commerce_email : String
  deriving DecidableEq

/-- The fields of a grouped row that `_calculate_company_billing` reads:
`row['commerce_name']`, `row['successful']`, `row['failed']`. -/
structure Row where
  commerce_name : String
  successful : Nat
  failed : Nat
  deriving DecidableEq

/-- Model of Python `str.strip()` as used on `row['commerce_name']`:
drops whitespace from both ends of the string. -/
def strip (s : String) : String :=
  (((s.toList.dropWhile Char.isWhitespace).reverse.dropWhile Char.isWhitespace).reverse).asString

/-- The IVA (tax) rate set in `BillingCalculator.__init__`: `self.iva_rate = 0.19`. -/
def iva_rate : ℚ := 19 / 100

/-- Embedding of `BillingCalculator._calculate_company_billing` (src/main.py
lines 374-434): per-company pricing dispatch on the trimmed commerce name,
optional discounts driven by failed calls, optional IVA step. -/
def calculate_company_billing (row : Row) (apply_discount : Bool) (apply_iva : Bool) : ℚ :=
  let company_name := strip row.commerce_name
  let successful_calls := row.successful
  let failed_calls := row.failed
  let base : ℚ :=
    if company_name = "Innovexa Solutions" then
      (successful_calls : ℚ) * 300
    else if company_name = "NexaTech Industries" then
      let rate : ℚ :=
        if successful_calls ≤ 10000 then 250
        else if successful_calls ≤ 20000 then 200
        else 170
      (successful_calls : ℚ) * rate
    else if company_name = "QuantumLeap Inc" then
      (successful_calls : ℚ) * 600
    else if company_name = "Zenith Corp" then
      let rate : ℚ := if successful_calls ≤ 22000 then 250 else 130
      let zbase := (successful_calls : ℚ) * rate
      if apply_discount ∧ failed_calls > 6000 then zbase * (95 / 100) else zbase
    else if company_name = "FusionWave Enterprises" then
      let fbase := (successful_calls : ℚ) * 300
      if apply_discount then
        if 2500 ≤ failed_calls ∧ failed_calls ≤ 4500 then fbase * (95 / 100)
        else if failed_calls > 4500 then fbase * (92 / 100)
        else fbase
      else fbase
    else
      (0 : ℚ)
  if apply_iva then base * (1 + iva_rate) else base

/-- Embedding of `_calculate_company_billing_base`: both flags off, producing
the `total_a_cobrar_sin_iva` column. -/
def calculate_company_billing_base (row : Row) : ℚ :=
  calculate_company_billing row false false

/-- The engine at its Python default flags (`apply_discount=True`,
`apply_iva=True`), producing the `total_a_cobrar_con_iva` column. -/
def calculate_company_billing_total (row : Row) : ℚ :=
  calculate_company_billing row true true

/-- The datetime conversion `pd.to_datetime(df_api['date_api_call'])` applied
to one raw row: yields the converted row, or propagates the parse error
(pandas raises on an unparseable value; no row is silently skipped). -/
def to_datetime (r : RawApiCall) : Except String ApiCall :=
  match r.date_api_call with
  | Except.ok t =>
      Except.ok { commerce_id := r.commerce_id, date_api_call := t, ask_status := r.ask_status }
  | Except.error e => Except.error e

/-- The month list actually used by the filter in `load_data`: Python's
`if selected_months:` is falsy both for `None` and for an empty list, in
which case the default `[7, 8]` is used. -/
def months_filter : Option (List Nat) → List Nat
  | some ms => if ms.isEmpty then [7, 8] else ms
  | none => [7, 8]

/-- The row-level period predicate of `load_data`:
`dt.year == 2024` and `dt.month.isin(months)`. -/
def in_period (ms : Option (List Nat)) (r : ApiCall) : Bool :=
  r.date_api_call.year == 2024 && (months_filter ms).contains r.date_api_call.month

/-- `df_api_filtered` in `load_data`. -/
def api_filtered (df_api : List ApiCall) (ms : Option (List Nat)) : List ApiCall :=
  df_api.filter (in_period ms)

/-- `df_commerce_active` in `load_data`:
`df_commerce[df_commerce['commerce_status'] == "Active"]` (case-sensitive). -/
def active_commerces (db : Db) : List Commerce :=
  db.commerce.filter (fun c => c.commerce_status == "Active")

/-- Combination of one api-call row with one commerce row in the merge. -/
def merge_row (a : ApiCall) (c : Commerce) : MergedRow :=
  { commerce_id := a.commerce_id, date_api_call := a.date_api_call,
    ask_status := a.ask_status, commerce_name := c.commerce_name,
    commerce_nit := c.commerce_nit, commerce_email := c.commerce_email }

/-- `pd.merge(df_api_filtered, df_commerce_active, on="commerce_id", how="inner")`:
every pair of rows sharing a `commerce_id` produces one merged row. -/
def merge_frames (left : List ApiCall) (right : List Commerce) : List MergedRow :=
  left.flatMap (fun a => (right.filter (fun c => c.commerce_id == a.commerce_id)).map (merge_row a))

/-- Embedding of `BillingCalculator.load_data`: datetime conversion, period
filter, active-commerce filter, inner join.  A parse error aborts the load
(the `except` clause in the source re-raises). -/
def load_data (db : Db) (ms : Option (List Nat)) : Except String (List MergedRow) :=
  match db.apicall.mapM to_datetime with
  | Except.error e => Except.error e
  | Except.ok df_api => Except.ok (merge_frames (api_filtered df_api ms) (active_commerces db))

/-- The distinct `(commerce_id, commerce_name)` keys of the groupby in
`calculate_billing` (pandas sorts keys; the claims here are order-independent,
so first-occurrence order is used). -/
def group_keys (rows : List MergedRow) : List (String × String) :=
  (rows.map (fun r => (r.commerce_id, r.commerce_name))).dedup

/-- `successful=('ask_status', lambda x: (x == "Successful").sum())` for one group. -/
def count_successful (rows : List MergedRow) (k : String × String) : Nat :=
  (rows.filter (fun r =>
    (r.commerce_id, r.commerce_name) == k && r.ask_status == "Successful")).length

/-- `failed=('ask_status', lambda x: (x != "Successful").sum())` for one group. -/
def count_failed (rows : List MergedRow) (k : String × String) : Nat :=
  (rows.filter (fun r =>
    (r.commerce_id, r.commerce_name) == k && r.ask_status != "Successful")).length

/-- One output row of `calculate_billing`: the grouped counts plus the two
billing columns obtained by applying the engine to the grouped row. -/
structure Grouped where
  commerce_id : String
  commerce_name : String
  successful : Nat
  failed : Nat
  total_a_cobrar_sin_iva : ℚ
  total_a_cobrar_con_iva : ℚ
  deriving DecidableEq

/-- Builds the `calculate_billing` output row for one group key. -/
def mk_grouped (rows : List MergedRow) (k : String × String) : Grouped :=
  let s := count_successful rows k
  let f := count_failed rows k
  let row : Row := { commerce_name := k.2, successful := s, failed := f }
  { commerce_id := k.1, commerce_name := k.2, successful := s, failed := f,
    total_a_cobrar_sin_iva := calculate_company_billing_base row,
    total_a_cobrar_con_iva := calculate_company_billing_total row }

/-- Embedding of `BillingCalculator.calculate_billing` (src/main.py lines
335-358): groupby plus the two engine applications. -/
def calculate_billing (rows : List MergedRow) : List Grouped :=
  (group_keys rows).map (mk_grouped rows)

/-- The caller-visible columns of the billing summary assembled in
`run_billing_process` (renamed columns; `Valor_iva` is derived at line 492). -/
structure SummaryRow where
  Nombre : String
  Valor_comision : ℚ
  Valor_iva : ℚ
  Valor_Total : ℚ
  Conseguidas : Nat
  Falladas : Nat
  deriving DecidableEq

/-- Column renaming and the derived column of `run_billing_process`:
`Valor_iva = Valor_Total - Valor_comision` (line 492). -/
def summarize (g : Grouped) : SummaryRow :=
  { Nombre := g.commerce_name,
    Valor_comision := g.total_a_cobrar_sin_iva,
    Valor_iva := g.total_a_cobrar_con_iva - g.total_a_cobrar_sin_iva,
    Valor_Total := g.total_a_cobrar_con_iva,
    Conseguidas := g.successful,
    Falladas := g.failed }

/-- The `try` block of `run_billing_process`: load, bill, assemble.  Any
stage error propagates unmodified to the run boundary. -/
def run_billing_core (db : Db) (ms : Option (List Nat)) : Except String (List SummaryRow) :=
  match load_data db ms with
  | Except.error e => Except.error e
  | Except.ok merged => Except.ok ((calculate_billing merged).map summarize)

/-- Embedding of `BillingCalculator.run_billing_process` as seen by its
caller: the `except Exception` clause at lines 537-538 catches every error,
logs it, and falls through, so the method returns `None` instead of
re-raising. -/
def run_billing_process (db : Db) (ms : Option (List Nat)) : Option (List SummaryRow) :=
  match run_billing_core db ms with
  | Except.ok r => some r
  | Except.error _ => none

/-- Whether the commerce table holds an active commerce with the given id
(used to phrase eligibility; glossary: an eligible call is one within the
period whose commerce is active). -/
def commerce_active (db : Db) (c : String) : Bool :=
  db.commerce.any (fun x => x.commerce_id == c && x.commerce_status == "Active")

/-- A converted call record is eligible when it is in the analysis period
and its commerce is active. -/
def is_eligible (db : Db) (ms : Option (List Nat)) (r : ApiCall) : Bool :=
  in_period ms r && commerce_active db r.commerce_id

/-- Number of eligible call records carrying a given `commerce_id`, among
the converted call rows `df_api`. -/
def eligible_count (db : Db) (ms : Option (List Nat)) (df_api : List ApiCall) (c : String) : Nat :=
  (df_api.filter (fun r => is_eligible db ms r && r.commerce_id == c)).length

/-! Evaluation lemmas for the pricing engine, one per contract branch.
Each is definitional: the string dispatch reduces on the concrete name. -/

theorem billing_innovexa (s f : Nat) (d i : Bool) :
    calculate_company_billing { commerce_name := "Innovexa Solutions", successful := s, failed := f } d i =
      (if i then ((s : ℚ) * 300) * (1 + iva_rate) else (s : ℚ) * 300) := rfl

theorem billing_nexatech (s f : Nat) (d i : Bool) :
    calculate_company_billing { commerce_name := "NexaTech Industries", successful := s, failed := f } d i =
      (let rate : ℚ := if s ≤ 10000 then 250 else if s ≤ 20000 then 200 else 170
       if i then ((s : ℚ) * rate) * (1 + iva_rate) else (s : ℚ) * rate) := rfl

theorem billing_quantumleap (s f : Nat) (d i : Bool) :
    calculate_company_billing { commerce_name := "QuantumLeap Inc", successful := s, failed := f } d i =
      (if i then ((s : ℚ) * 600) * (1 + iva_rate) else (s : ℚ) * 600) := rfl

theorem billing_zenith (s f : Nat) (d i : Bool) :
    calculate_company_billing { commerce_name := "Zenith Corp", successful := s, failed := f } d i =
      (let rate : ℚ := if s ≤ 22000 then 250 else 130
       let zbase := (s : ℚ) * rate
       let zbase2 := if d ∧ f > 6000 then zbase * (95 / 100) else zbase
       if i then zbase2 * (1 + iva_rate) else zbase2) := rfl

theorem billing_fusionwave (s f : Nat) (d i : Bool) :
    calculate_company_billing { commerce_name := "FusionWave Enterprises", successful := s, failed := f } d i =
      (let fbase := (s : ℚ) * 300
       let fbase2 :=
         if d then
           if 2500 ≤ f ∧ f ≤ 4500 then fbase * (95 / 100)
           else if f > 4500 then fbase * (92 / 100)
           else fbase
         else fbase
       if i then fbase2 * (1 + iva_rate) else fbase2) := rfl

/-- Helper: the NexaTech tier rate as a function of the successful count. -/
def nexatech_rate (s : Nat) : ℚ :=
  if s ≤ 10000 then 250 else if s ≤ 20000 then 200 else 170

/-- Helper: the Zenith rate as a function of the successful count. -/
def zenith_rate (s : Nat) : ℚ :=
  if s ≤ 22000 then 250 else 130

/-- Any row whose stripped name is none of the five contract names falls
through every branch of the dispatch and yields zero. -/
theorem billing_unknown (r : Row) (d i : Bool)
    (h1 : strip r.commerce_name ≠ "Innovexa Solutions")
    (h2 : strip r.commerce_name ≠ "NexaTech Industries")
    (h3 : strip r.commerce_name ≠ "QuantumLeap Inc")
    (h4 : strip r.commerce_name ≠ "Zenith Corp")
    (h5 : strip r.commerce_name ≠ "FusionWave Enterprises") :
    calculate_company_billing r d i = 0 := by
  simp only [calculate_company_billing]
  rw [if_neg h1, if_neg h2, if_neg h3, if_neg h4, if_neg h5]
  cases i <;> simp

/-- C3: for a NexaTech Industries group the base (pre-discount, pre-tax)
amount is the successful count times the tier rate, with inclusive tier
boundaries: rate 250 at successful = 10000, rate 200 at 10001 and at 20000,
rate 170 at 20001, for every failed count. -/
theorem nexatech_tier_boundaries (f : Nat) :
    (∀ s : Nat, calculate_company_billing_base
        { commerce_name := "NexaTech Industries", successful := s, failed := f } =
        (s : ℚ) * nexatech_rate s) ∧
    calculate_company_billing_base
        { commerce_name := "NexaTech Industries", successful := 10000, failed := f } = 10000 * 250 ∧
    calculate_company_billing_base
        { commerce_name := "NexaTech Industries", successful := 10001, failed := f } = 10001 * 200 ∧
    calculate_company_billing_base
        { commerce_name := "NexaTech Industries", successful := 20000, failed := f } = 20000 * 200 ∧
    calculate_company_billing_base
        { commerce_name := "NexaTech Industries", successful := 20001, failed := f } = 20001 * 170 := by
  refine ⟨fun s => rfl, ?_, ?_, ?_, ?_⟩ <;>
    norm_num [calculate_company_billing_base, billing_nexatech]

/-- C4: for a Zenith Corp group the base amount is successful times 250 when
successful is at most 22000 and times 130 otherwise; with the discount flag
on, the base is multiplied by 0.95 exactly when failed exceeds 6000
(failed = 6000 gives no discount, failed = 6001 gives the 5% discount). -/
theorem zenith_pricing (s f : Nat) :
    calculate_company_billing_base
        { commerce_name := "Zenith Corp", successful := s, failed := f } =
      (s : ℚ) * zenith_rate s ∧
    calculate_company_billing
        { commerce_name := "Zenith Corp", successful := s, failed := f } true false =
      (if 6000 < f then ((s : ℚ) * zenith_rate s) * (95 / 100) else (s : ℚ) * zenith_rate s) ∧
    calculate_company_billing
        { commerce_name := "Zenith Corp", successful := s, failed := 6000 } true false =
      (s : ℚ) * zenith_rate s ∧
    calculate_company_billing
        { commerce_name := "Zenith Corp", successful := s, failed := 6001 } true false =
      ((s : ℚ) * zenith_rate s) * (95 / 100) := by
  refine ⟨rfl, ?_, ?_, ?_⟩
  · rw [billing_zenith]
    by_cases h : 6000 < f <;> simp [h, zenith_rate]
  · rw [billing_zenith]
    norm_num [zenith_rate]
  · rw [billing_zenith]
    norm_num [zenith_rate]

/-- C5: for a FusionWave Enterprises group the base amount is successful
times 300; with the discount flag on, the base is multiplied by 0.95 exactly
when 2500 <= failed <= 4500 and by 0.92 exactly when failed > 4500
(failed = 2499: none, 2500 and 4500: factor 0.95, 4501: factor 0.92). -/
theorem fusionwave_discount_bands (s f : Nat) :
    calculate_company_billing_base
        { commerce_name := "FusionWave Enterprises", successful := s, failed := f } =
      (s : ℚ) * 300 ∧
    calculate_company_billing
        { commerce_name := "FusionWave Enterprises", successful := s, failed := f } true false =
      (if 2500 ≤ f ∧ f ≤ 4500 then ((s : ℚ) * 300) * (95 / 100)
       else if 4500 < f then ((s : ℚ) * 300) * (92 / 100)
       else (s : ℚ) * 300) ∧
    calculate_company_billing
        { commerce_name := "FusionWave Enterprises", successful := s, failed := 2499 } true false =
      (s : ℚ) * 300 ∧
    calculate_company_billing
        { commerce_name := "FusionWave Enterprises", successful := s, failed := 2500 } true false =
      ((s : ℚ) * 300) * (95 / 100) ∧
    calculate_company_billing
        { commerce_name := "FusionWave Enterprises", successful := s, failed := 4500 } true false =
      ((s : ℚ) * 300) * (95 / 100) ∧
    calculate_company_billing
        { commerce_name := "FusionWave Enterprises", successful := s, failed := 4501 } true false =
      ((s : ℚ) * 300) * (92 / 100) := by
  refine ⟨rfl, ?_, ?_, ?_, ?_, ?_⟩ <;> rw [billing_fusionwave]
  · by_cases h1 : 2500 ≤ f ∧ f ≤ 4500
    · simp [h1]
    · by_cases h2 : 4500 < f <;> simp [h1, h2]
  all_goals norm_num

/-- C7: a group whose stripped commerce name is none of the five contract
names is priced at zero for every flag combination; in particular its
invoice has both the pre-tax and the total amount equal to zero (the engine
is total, so no error is raised). -/
theorem unknown_company_zero (r : Row) (d i : Bool)
    (h1 : strip r.commerce_name ≠ "Innovexa Solutions")
    (h2 : strip r.commerce_name ≠ "NexaTech Industries")
    (h3 : strip r.commerce_name ≠ "QuantumLeap Inc")
    (h4 : strip r.commerce_name ≠ "Zenith Corp")
    (h5 : strip r.commerce_name ≠ "FusionWave Enterprises") :
    calculate_company_billing r d i = 0 ∧
    calculate_company_billing_base r = 0 ∧
    calculate_company_billing_total r = 0 :=
  ⟨billing_unknown r d i h1 h2 h3 h4 h5,
   billing_unknown r false false h1 h2 h3 h4 h5,
   billing_unknown r true true h1 h2 h3 h4 h5⟩

/-- C7 witness: a concrete unknown company is priced at zero. -/
theorem unknown_company_zero_witness :
    calculate_company_billing
        { commerce_name := "Acme Corp", successful := 5, failed := 7 } true true = 0 ∧
    calculate_company_billing_base
        { commerce_name := "Acme Corp", successful := 5, failed := 7 } = 0 ∧
    calculate_company_billing_total
        { commerce_name := "Acme Corp", successful := 5, failed := 7 } = 0 :=
  unknown_company_zero
    { commerce_name := "Acme Corp", successful := 5, failed := 7 } true true
    (by decide) (by decide) (by decide) (by decide) (by decide)

/-- C10: for Innovexa Solutions, NexaTech Industries and QuantumLeap Inc the
engine result does not depend on the failed count or on the discount flag:
runs agreeing on name, successful count and the IVA flag return equal
amounts. -/
theorem flat_companies_ignore_failed (s f1 f2 : Nat) (d1 d2 i : Bool) :
    calculate_company_billing
        { commerce_name := "Innovexa Solutions", successful := s, failed := f1 } d1 i =
      calculate_company_billing
        { commerce_name := "Innovexa Solutions", successful := s, failed := f2 } d2 i ∧
    calculate_company_billing
        { commerce_name := "NexaTech Industries", successful := s, failed := f1 } d1 i =
      calculate_company_billing
        { commerce_name := "NexaTech Industries", successful := s, failed := f2 } d2 i ∧
    calculate_company_billing
        { commerce_name := "QuantumLeap Inc", successful := s, failed := f1 } d1 i =
      calculate_company_billing
        { commerce_name := "QuantumLeap Inc", successful := s, failed := f2 } d2 i :=
  ⟨rfl, rfl, rfl⟩

/-- C1 counterexample: for a Zenith Corp group with 1 successful and 6001
failed calls, the total (engine with both flags true) is not the pre-tax
figure (engine with both flags false) times (1 + tax rate): the 5% discount
enters the total but not the pre-tax figure, so 282.625 differs from 297.5. -/
theorem tax_identity_counterexample :
    ¬ (calculate_company_billing_total
         { commerce_name := "Zenith Corp", successful := 1, failed := 6001 } =
       calculate_company_billing_base
         { commerce_name := "Zenith Corp", successful := 1, failed := 6001 } * (1 + iva_rate)) := by
  rw [calculate_company_billing_total, calculate_company_billing_base,
    billing_zenith, billing_zenith]
  norm_num [iva_rate]

/-- C1 amended: the invoice's tax amount always equals total minus pre-tax
(line 492 computes it exactly that way), and the total equals the pre-tax
figure times (1 + tax rate) with tax rate 0.19 whenever no discount
condition fires for the group, that is, except for Zenith Corp groups with
failed > 6000 and FusionWave Enterprises groups with failed >= 2500. -/
theorem tax_identity_amended (r : Row)
    (hz : ¬ (strip r.commerce_name = "Zenith Corp" ∧ 6000 < r.failed))
    (hw : ¬ (strip r.commerce_name = "FusionWave Enterprises" ∧ 2500 ≤ r.failed)) :
    (∀ g : Grouped, (summarize g).Valor_iva =
        (summarize g).Valor_Total - (summarize g).Valor_comision) ∧
    calculate_company_billing_total r = calculate_company_billing_base r * (1 + iva_rate) := by
  refine ⟨fun g => rfl, ?_⟩
  rw [calculate_company_billing_total, calculate_company_billing_base]
  by_cases h1 : strip r.commerce_name = "Innovexa Solutions"
  · simp [calculate_company_billing, h1]
  by_cases h2 : strip r.commerce_name = "NexaTech Industries"
  · simp [calculate_company_billing, h1, h2]
  by_cases h3 : strip r.commerce_name = "QuantumLeap Inc"
  · simp [calculate_company_billing, h1, h2, h3]
  by_cases h4 : strip r.commerce_name = "Zenith Corp"
  · have hf : ¬ 6000 < r.failed := fun hf => hz ⟨h4, hf⟩
    simp [calculate_company_billing, h1, h2, h3, h4, hf]
  by_cases h5 : strip r.commerce_name = "FusionWave Enterprises"
  · have hf : ¬ 2500 ≤ r.failed := fun hf => hw ⟨h5, hf⟩
    have hf2 : ¬ 4500 < r.failed := fun hc => hf (by omega)
    simp [calculate_company_billing, h1, h2, h3, h4, h5, hf, hf2]
  · simp [calculate_company_billing, h1, h2, h3, h4, h5]

/-- C1 amended witness: Innovexa Solutions with 100 successful and 10 failed
calls satisfies total = pre-tax times 1.19 (the spec's end-to-end example). -/
theorem tax_identity_amended_witness :
    calculate_company_billing_total
        { commerce_name := "Innovexa Solutions", successful := 100, failed := 10 } =
      calculate_company_billing_base
        { commerce_name := "Innovexa Solutions", successful := 100, failed := 10 } * (1 + iva_rate) :=
  (tax_identity_amended
    { commerce_name := "Innovexa Solutions", successful := 100, failed := 10 }
    (by decide) (by decide)).2

/-- C2 counterexample: NexaTech Industries pricing strictly decreases when
the successful count steps from 10000 (rate 250) to 10001 (rate 200), with
failed count and both flags held fixed. -/
theorem pricing_monotone_counterexample :
    calculate_company_billing
        { commerce_name := "NexaTech Industries", successful := 10001, failed := 0 } true true <
      calculate_company_billing
        { commerce_name := "NexaTech Industries", successful := 10000, failed := 0 } true true := by
  rw [billing_nexatech, billing_nexatech]
  norm_num [iva_rate]

/-- C2 amended: pricing is monotonically non-decreasing in the successful
count (failed count and flags fixed) for the flat-rate contracts Innovexa
Solutions, QuantumLeap Inc and FusionWave Enterprises; for the tiered
contracts NexaTech Industries and Zenith Corp it is non-decreasing within
each tier (it can drop across a tier boundary, as the counterexample shows). -/
theorem pricing_monotone_amended (s1 s2 f : Nat) (d i : Bool) (h : s1 ≤ s2) :
    (calculate_company_billing
        { commerce_name := "Innovexa Solutions", successful := s1, failed := f } d i ≤
      calculate_company_billing
        { commerce_name := "Innovexa Solutions", successful := s2, failed := f } d i) ∧
    (calculate_company_billing
        { commerce_name := "QuantumLeap Inc", successful := s1, failed := f } d i ≤
      calculate_company_billing
        { commerce_name := "QuantumLeap Inc", successful := s2, failed := f } d i) ∧
    (calculate_company_billing
        { commerce_name := "FusionWave Enterprises", successful := s1, failed := f } d i ≤
      calculate_company_billing
        { commerce_name := "FusionWave Enterprises", successful := s2, failed := f } d i) ∧
    (s2 ≤ 10000 →
      calculate_company_billing
        { commerce_name := "NexaTech Industries", successful := s1, failed := f } d i ≤
      calculate_company_billing
        { commerce_name := "NexaTech Industries", successful := s2, failed := f } d i) ∧
    (10000 < s1 → s2 ≤ 20000 →
      calculate_company_billing
        { commerce_name := "NexaTech Industries", successful := s1, failed := f } d i ≤
      calculate_company_billing
        { commerce_name := "NexaTech Industries", successful := s2, failed := f } d i) ∧
    (20000 < s1 →
      calculate_company_billing
        { commerce_name := "NexaTech Industries", successful := s1, failed := f } d i ≤
      calculate_company_billing
        { commerce_name := "NexaTech Industries", successful := s2, failed := f } d i) ∧
    (s2 ≤ 22000 →
      calculate_company_billing
        { commerce_name := "Zenith Corp", successful := s1, failed := f } d i ≤
      calculate_company_billing
        { commerce_name := "Zenith Corp", successful := s2, failed := f } d i) ∧
    (22000 < s1 →
      calculate_company_billing
        { commerce_name := "Zenith Corp", successful := s1, failed := f } d i ≤
      calculate_company_billing
        { commerce_name := "Zenith Corp", successful := s2, failed := f } d i) := by
  have hc : (s1 : ℚ) ≤ s2 := Nat.cast_le.mpr h
  refine ⟨?_, ?_, ?_, ?_, ?_, ?_, ?_, ?_⟩
  · rw [billing_innovexa, billing_innovexa]
    cases i <;> norm_num [iva_rate] <;> linarith
  · rw [billing_quantumleap, billing_quantumleap]
    cases i <;> norm_num [iva_rate] <;> linarith
  · rw [billing_fusionwave, billing_fusionwave]
    dsimp only
    split_ifs <;> cases i <;> norm_num [iva_rate] <;> linarith
  · intro h10
    have h1a : s1 ≤ 10000 := le_trans h h10
    rw [billing_nexatech, billing_nexatech]
    dsimp only
    rw [if_pos h1a, if_pos h10]
    cases i <;> norm_num [iva_rate] <;> linarith
  · intro ha hb
    have c1 : ¬ s1 ≤ 10000 := by omega
    have c2 : s1 ≤ 20000 := by omega
    have c3 : ¬ s2 ≤ 10000 := by omega
    rw [billing_nexatech, billing_nexatech]
    dsimp only
    rw [if_neg c1, if_pos c2, if_neg c3, if_pos hb]
    cases i <;> norm_num [iva_rate] <;> linarith
  · intro ha
    have c1 : ¬ s1 ≤ 10000 := by omega
    have c2 : ¬ s1 ≤ 20000 := by omega
    have c3 : ¬ s2 ≤ 10000 := by omega
    have c4 : ¬ s2 ≤ 20000 := by omega
    rw [billing_nexatech, billing_nexatech]
    dsimp only
    rw [if_neg c1, if_neg c2, if_neg c3, if_neg c4]
    cases i <;> norm_num [iva_rate] <;> linarith
  · intro h22
    have h1a : s1 ≤ 22000 := le_trans h h22
    rw [billing_zenith, billing_zenith]
    dsimp only
    rw [if_pos h1a, if_pos h22]
    split_ifs <;> cases i <;> norm_num [iva_rate] <;> linarith
  · intro ha
    have c1 : ¬ s1 ≤ 22000 := by omega
    have c2 : ¬ s2 ≤ 22000 := by omega
    rw [billing_zenith, billing_zenith]
    dsimp only
    rw [if_neg c1, if_neg c2]
    split_ifs <;> cases i <;> norm_num [iva_rate] <;> linarith

/-- C2 amended witness: a concrete monotone step for Innovexa Solutions. -/
theorem pricing_monotone_amended_witness :
    calculate_company_billing
        { commerce_name := "Innovexa Solutions", successful := 5, failed := 0 } true true ≤
      calculate_company_billing
        { commerce_name := "Innovexa Solutions", successful := 9, failed := 0 } true true :=
  (pricing_monotone_amended 5 9 0 true true (by norm_num)).1

/-- A database whose single call record has an unparseable timestamp. -/
def bad_db : Db :=
  { apicall := [{ commerce_id := "c1",
                  date_api_call := Except.error ("unparseable timestamp"),
                  ask_status := "Successful" }],
    commerce := [] }

/-- C9 counterexample: on a database with one unparseable timestamp the
pipeline core does abort with the parse error, but `run_billing_process`
returns `none` to its caller: the `except` clause at lines 537-538 catches
and logs the error instead of re-raising it, so the caller never observes
the original error. -/
theorem error_reaches_caller_counterexample :
    run_billing_core bad_db none = Except.error ("unparseable timestamp") ∧
    run_billing_process bad_db none = none :=
  ⟨rfl, rfl⟩

/-- C9 amended: an unparseable timestamp aborts the load (no record is
silently skipped) and the error propagates unmodified through the pipeline
to the run boundary; there `run_billing_process` catches it, logs it, and
returns no result at all (`None`) — the caller gets no partial result but
also never observes the original error. -/
theorem error_swallowed_at_boundary (db : Db) (ms : Option (List Nat)) (e : String)
    (h : db.apicall.mapM to_datetime = Except.error e) :
    load_data db ms = Except.error e ∧
    run_billing_core db ms = Except.error e ∧
    run_billing_process db ms = none := by
  have h1 : load_data db ms = Except.error e := by
    simp only [load_data, h]
  refine ⟨h1, ?_, ?_⟩
  · simp only [run_billing_core, h1]
  · simp only [run_billing_process, run_billing_core, h1]

/-- C9 amended witness: the concrete bad database realizes the hypothesis. -/
theorem error_swallowed_at_boundary_witness :
    load_data bad_db none = Except.error ("unparseable timestamp") ∧
    run_billing_core bad_db (some [7]) = Except.error ("unparseable timestamp") ∧
    run_billing_process bad_db (some [7]) = none :=
  ⟨(error_swallowed_at_boundary bad_db none ("unparseable timestamp") rfl).1,
   (error_swallowed_at_boundary bad_db (some [7]) ("unparseable timestamp") rfl).2.1,
   (error_swallowed_at_boundary bad_db (some [7]) ("unparseable timestamp") rfl).2.2⟩

/-- C8: the period filter keeps exactly the converted call rows with year
2024 and month in the selected list (default months 7 and 8 when none are
given), the commerce filter keeps exactly the rows whose status is the
exact string Active, and the inner join on commerce_id lets a call record
whose commerce is missing or inactive contribute to no merged row (hence to
no group). -/
theorem eligibility_filter_exact (df : List ApiCall) (l : List Nat) (db : Db)
    (r : ApiCall) (c : Commerce) (left : List ApiCall) (cid : String)
    (hl : l ≠ []) :
    (r ∈ api_filtered df (some l) ↔
      r ∈ df ∧ r.date_api_call.year = 2024 ∧ r.date_api_call.month ∈ l) ∧
    (r ∈ api_filtered df none ↔
      r ∈ df ∧ r.date_api_call.year = 2024 ∧
        (r.date_api_call.month = 7 ∨ r.date_api_call.month = 8)) ∧
    (c ∈ active_commerces db ↔ c ∈ db.commerce ∧ c.commerce_status = "Active") ∧
    (commerce_active db cid = false →
      ∀ m ∈ merge_frames left (active_commerces db), m.commerce_id ≠ cid) := by
  have hle : l.isEmpty = false := by
    cases l with
    | nil => exact absurd rfl hl
    | cons a t => rfl
  refine ⟨?_, ?_, ?_, ?_⟩
  · simp [api_filtered, in_period, months_filter, hle, List.mem_filter, and_assoc]
  · simp [api_filtered, in_period, months_filter, List.mem_filter, and_assoc]
  · simp [active_commerces, List.mem_filter]
  · intro hact m hm
    simp only [merge_frames, List.mem_flatMap, List.mem_map, List.mem_filter] at hm
    obtain ⟨a, ha, x, ⟨hxmem, hxid⟩, rfl⟩ := hm
    intro hmc
    have hax : x.commerce_id = a.commerce_id := by simpa using hxid
    have hmc2 : a.commerce_id = cid := hmc
    have hxmem2 : x ∈ db.commerce ∧ x.commerce_status = "Active" := by
      simpa [active_commerces, List.mem_filter] using hxmem
    have hcid : commerce_active db cid = true := by
      simp only [commerce_active, List.any_eq_true]
      refine ⟨x, hxmem2.1, ?_⟩
      simp [hax, hmc2, hxmem2.2]
    rw [hcid] at hact
    exact absurd hact (by simp)

/-- C8 witness: a July 2024 call passes the filter for selected month 7. -/
theorem eligibility_filter_exact_witness :
    { commerce_id := "c1",
      date_api_call := { year := 2024, month := 7 },
      ask_status := "Successful" : ApiCall } ∈
      api_filtered
        [{ commerce_id := "c1",
           date_api_call := { year := 2024, month := 7 },
           ask_status := "Successful" }] (some [7]) := by
  have h := (eligibility_filter_exact
    [{ commerce_id := "c1",
       date_api_call := { year := 2024, month := 7 },
       ask_status := "Successful" }] [7] bad_db
    { commerce_id := "c1",
      date_api_call := { year := 2024, month := 7 },
      ask_status := "Successful" }
    { commerce_id := "x", commerce_name := "x", commerce_status := "x",
      commerce_nit := "x", commerce_email := "x" }
    [] ("c9") (by decide)).1
  exact h.mpr ⟨by decide, rfl, by decide⟩

/-! Supporting lemmas for the aggregator invariant (C6). -/

/-- The successful and failed counts of a group add up to the number of
merged rows carrying the group key: the two groupby aggregations split the
group by `ask_status == "Successful"`. -/
theorem counts_add (rows : List MergedRow) (k : String × String) :
    count_successful rows k + count_failed rows k =
      (rows.filter (fun r => (r.commerce_id, r.commerce_name) == k)).length := by
  induction rows with
  | nil => rfl
  | cons r rs ih =>
    simp only [count_successful, count_failed, List.filter_cons] at ih ⊢
    by_cases hk : ((r.commerce_id, r.commerce_name) == k) = true
    · by_cases hs : r.ask_status = "Successful"
      · rw [if_pos (by simp [Bool.and_eq_true, hk, hs]),
            if_neg (by simp [Bool.and_eq_true, bne_iff_ne, hs]),
            if_pos hk]
        simp only [List.length_cons]
        omega
      · rw [if_neg (by simp [Bool.and_eq_true, hs]),
            if_pos (by simp [Bool.and_eq_true, hk, bne_iff_ne, hs]),
            if_pos hk]
        simp only [List.length_cons]
        omega
    · rw [if_neg (by simp [Bool.and_eq_true, hk]),
          if_neg (by simp [Bool.and_eq_true, hk]),
          if_neg hk]
      exact ih

/-- Counting merged rows with a given commerce id: each left row with that
id pairs with every right row with that id. -/
theorem merge_count_by_id (left : List ApiCall) (right : List Commerce) (cid : String) :
    ((merge_frames left right).filter (fun m => m.commerce_id == cid)).length =
      (left.filter (fun a => a.commerce_id == cid)).length *
        (right.filter (fun x => x.commerce_id == cid)).length := by
  induction left with
  | nil => simp [merge_frames]
  | cons a l ih =>
    simp only [merge_frames, List.flatMap_cons, List.filter_append, List.length_append,
      List.filter_cons] at ih ⊢
    by_cases hac : (a.commerce_id == cid) = true
    · have ha' : a.commerce_id = cid := by simpa using hac
      have hall : ∀ m ∈ (right.filter
          (fun c => c.commerce_id == a.commerce_id)).map (merge_row a),
          (fun m => m.commerce_id == cid) m = true := by
        intro m hm
        simp only [List.mem_map] at hm
        obtain ⟨x, hx, rfl⟩ := hm
        simpa [merge_row] using hac
      rw [List.filter_eq_self.mpr hall, List.length_map, if_pos hac]
      simp only [ha', List.length_cons]
      rw [ih]
      ring
    · have hnone : ∀ m ∈ (right.filter
          (fun c => c.commerce_id == a.commerce_id)).map (merge_row a),
          ¬ ((fun m => m.commerce_id == cid) m = true) := by
        intro m hm
        simp only [List.mem_map] at hm
        obtain ⟨x, hx, rfl⟩ := hm
        simpa [merge_row] using hac
      rw [List.filter_eq_nil_iff.mpr hnone, if_neg hac]
      simpa using ih

/-- With pairwise distinct ids in the commerce list, at most one commerce
row carries any given id. -/
theorem unique_filter_length_le (right : List Commerce) (cid : String)
    (hnd : (right.map (fun c => c.commerce_id)).Nodup) :
    (right.filter (fun x => x.commerce_id == cid)).length ≤ 1 := by
  induction right with
  | nil => simp
  | cons x xs ih =>
    simp only [List.map_cons, List.nodup_cons] at hnd
    obtain ⟨hx, hxs⟩ := hnd
    simp only [List.filter_cons]
    by_cases hc : (x.commerce_id == cid) = true
    · have hnil : xs.filter (fun y => y.commerce_id == cid) = [] := by
        rw [List.filter_eq_nil_iff]
        intro y hy hyc
        apply hx
        have : y.commerce_id = cid := by simpa using hyc
        have hxc : x.commerce_id = cid := by simpa using hc
        rw [List.mem_map]
        exact ⟨y, hy, by rw [this, hxc]⟩
      rw [if_pos hc, hnil]
      simp
    · rw [if_neg hc]
      exact ih hxs

/-- Characterization of membership in the inner join. -/
theorem mem_merge_frames {left : List ApiCall} {right : List Commerce} {m : MergedRow} :
    m ∈ merge_frames left right ↔
      ∃ a ∈ left, ∃ x ∈ right, x.commerce_id = a.commerce_id ∧ m = merge_row a x := by
  simp only [merge_frames, List.mem_flatMap, List.mem_map, List.mem_filter, beq_iff_eq]
  constructor
  · rintro ⟨a, ha, x, ⟨hx, hxa⟩, rfl⟩
    exact ⟨a, ha, x, hx, hxa, rfl⟩
  · rintro ⟨a, ha, x, hx, hxa, rfl⟩
    exact ⟨a, ha, x, ⟨hx, hxa⟩, rfl⟩

/-- With unique commerce ids the commerce id of a merged row determines its
commerce name. -/
theorem merged_name_det (left : List ApiCall) (right : List Commerce)
    (hnd : (right.map (fun c => c.commerce_id)).Nodup)
    (m m' : MergedRow) (hm : m ∈ merge_frames left right)
    (hm' : m' ∈ merge_frames left right)
    (hid : m.commerce_id = m'.commerce_id) :
    m.commerce_name = m'.commerce_name := by
  obtain ⟨a, ha, x, hx, hxa, rfl⟩ := mem_merge_frames.mp hm
  obtain ⟨a', ha', x', hx', hxa', rfl⟩ := mem_merge_frames.mp hm'
  simp only [merge_row] at hid ⊢
  have hxx : x = x' := by
    apply List.inj_on_of_nodup_map hnd hx hx'
    show x.commerce_id = x'.commerce_id
    rw [hxa, hxa', hid]
  rw [hxx]

/-- For a realized group key, filtering merged rows by the key pair filters
exactly the rows with the key's commerce id (unique ids force the name). -/
theorem filter_key_eq_filter_id (left : List ApiCall) (right : List Commerce)
    (hnd : (right.map (fun c => c.commerce_id)).Nodup)
    (k : String × String) (m0 : MergedRow)
    (hm0 : m0 ∈ merge_frames left right)
    (hkey : (m0.commerce_id, m0.commerce_name) = k) :
    (merge_frames left right).filter (fun r => (r.commerce_id, r.commerce_name) == k) =
      (merge_frames left right).filter (fun r => r.commerce_id == k.1) := by
  apply List.filter_congr
  intro m hm
  rw [Bool.eq_iff_iff]
  simp only [beq_iff_eq]
  constructor
  · intro hp
    rw [← hkey] at hp
    have : m.commerce_id = m0.commerce_id := congrArg Prod.fst hp
    rw [this, ← hkey]
  · intro hid
    have hid' : m.commerce_id = m0.commerce_id := by
      rw [hid, ← hkey]
    have hname : m.commerce_name = m0.commerce_name :=
      merged_name_det left right hnd m m0 hm hm0 hid'
    rw [← hkey, hid', hname]

/-- When the commerce with a given id is active, the eligible calls with
that id are exactly the period-filtered calls with that id. -/
theorem eligible_count_eq (db : Db) (ms : Option (List Nat)) (df : List ApiCall)
    (cid : String) (hact : commerce_active db cid = true) :
    eligible_count db ms df cid =
      ((api_filtered df ms).filter (fun r => r.commerce_id == cid)).length := by
  rw [eligible_count, api_filtered, List.filter_filter]
  congr 1
  apply List.filter_congr
  intro r hr
  by_cases hc : (r.commerce_id == cid) = true
  · have hc' : r.commerce_id = cid := by simpa using hc
    simp [is_eligible, hc, hc', hact]
  · simp [hc]

/-- C6: every group produced by the aggregator has successful = number of
eligible joined call rows of that group with status exactly Successful,
failed = number of the remaining joined rows of the group, and
successful + failed = total number of eligible call records carrying that
commerce id (the commerce table is keyed by commerce_id, hence the
uniqueness hypothesis).  The first conjunct ties the merged input to
`load_data`. -/
theorem aggregator_counts (db : Db) (ms : Option (List Nat)) (df_api : List ApiCall)
    (hconv : db.apicall.mapM to_datetime = Except.ok df_api)
    (hnodup : (db.commerce.map (fun c => c.commerce_id)).Nodup)
    (g : Grouped)
    (hg : g ∈ calculate_billing
      (merge_frames (api_filtered df_api ms) (active_commerces db))) :
    load_data db ms = Except.ok
      (merge_frames (api_filtered df_api ms) (active_commerces db)) ∧
    g.successful = count_successful
      (merge_frames (api_filtered df_api ms) (active_commerces db))
      (g.commerce_id, g.commerce_name) ∧
    g.failed = count_failed
      (merge_frames (api_filtered df_api ms) (active_commerces db))
      (g.commerce_id, g.commerce_name) ∧
    g.successful + g.failed = eligible_count db ms df_api g.commerce_id := by
  have hload : load_data db ms = Except.ok
      (merge_frames (api_filtered df_api ms) (active_commerces db)) := by
    simp only [load_data, hconv]
  refine ⟨hload, ?_⟩
  simp only [calculate_billing, List.mem_map] at hg
  obtain ⟨k, hkmem, rfl⟩ := hg
  obtain ⟨k1, k2⟩ := k
  have hkey : ∃ m0 ∈ merge_frames (api_filtered df_api ms) (active_commerces db),
      (m0.commerce_id, m0.commerce_name) = (k1, k2) := by
    simpa [group_keys, List.mem_dedup, List.mem_map] using hkmem
  obtain ⟨m0, hm0, hkeq⟩ := hkey
  rw [Prod.mk.injEq] at hkeq
  obtain ⟨hk1, hk2⟩ := hkeq
  have hnd_act : ((active_commerces db).map (fun c => c.commerce_id)).Nodup :=
    List.Nodup.sublist (List.Sublist.map _ (List.filter_sublist _)) hnodup
  refine ⟨rfl, rfl, ?_⟩
  obtain ⟨a0, ha0, x0, hx0, hx0id, hm0eq⟩ := mem_merge_frames.mp hm0
  have hm0id : m0.commerce_id = a0.commerce_id := by rw [hm0eq]; rfl
  have hx0cid : x0.commerce_id = k1 := by rw [hx0id, ← hm0id, hk1]
  have hx0mem : x0 ∈ (active_commerces db).filter (fun x => x.commerce_id == k1) :=
    List.mem_filter.mpr ⟨hx0, by simp [hx0cid]⟩
  have hR : ((active_commerces db).filter (fun x => x.commerce_id == k1)).length = 1 := by
    have h1 : 1 ≤ ((active_commerces db).filter (fun x => x.commerce_id == k1)).length :=
      List.length_pos.mpr (List.ne_nil_of_mem hx0mem)
    have h2 := unique_filter_length_le (active_commerces db) k1 hnd_act
    omega
  have hact : commerce_active db k1 = true := by
    have hx0' : x0 ∈ db.commerce ∧ x0.commerce_status = "Active" := by
      simpa [active_commerces, List.mem_filter] using hx0
    simp only [commerce_active, List.any_eq_true]
    exact ⟨x0, hx0'.1, by simp [hx0cid, hx0'.2]⟩
  have hfk := filter_key_eq_filter_id (api_filtered df_api ms) (active_commerces db)
    hnd_act (k1, k2) m0 hm0 (by rw [hk1, hk2])
  dsimp only at hfk
  have hcount := merge_count_by_id (api_filtered df_api ms) (active_commerces db) k1
  have helig := eligible_count_eq db ms df_api k1 hact
  show count_successful (merge_frames (api_filtered df_api ms) (active_commerces db)) (k1, k2) +
      count_failed (merge_frames (api_filtered df_api ms) (active_commerces db)) (k1, k2) =
      eligible_count db ms df_api k1
  rw [counts_add, hfk, hcount, hR, mul_one, helig]

/-- A two-call, one-commerce database used to instantiate the aggregator
invariant. -/
def wdb : Db :=
  { apicall :=
      [{ commerce_id := "c1",
         date_api_call := Except.ok { year := 2024, month := 7 },
         ask_status := "Successful" },
       { commerce_id := "c1",
         date_api_call := Except.ok { year := 2024, month := 8 },
         ask_status := "Failed" }],
    commerce :=
      [{ commerce_id := "c1", commerce_name := "Innovexa Solutions",
         commerce_status := "Active", commerce_nit := "900123456",
         commerce_email := "innovexa@mail.com" }] }

/-- The converted call rows of `wdb`. -/
def wdf : List ApiCall :=
  [{ commerce_id := "c1", date_api_call := { year := 2024, month := 7 },
     ask_status := "Successful" },
   { commerce_id := "c1", date_api_call := { year := 2024, month := 8 },
     ask_status := "Failed" }]

/-- The merged rows of `wdb` for the default months. -/
def wmerged : List MergedRow :=
  merge_frames (api_filtered wdf none) (active_commerces wdb)

/-- C6 witness: on the concrete database the single produced group has
successful + failed equal to its commerce's eligible call count. -/
theorem aggregator_counts_witness :
    (mk_grouped wmerged ("c1", "Innovexa Solutions")).successful +
      (mk_grouped wmerged ("c1", "Innovexa Solutions")).failed =
      eligible_count wdb none wdf
        (mk_grouped wmerged ("c1", "Innovexa Solutions")).commerce_id := by
  have h := aggregator_counts wdb none wdf rfl (by decide)
    (mk_grouped wmerged ("c1", "Innovexa Solutions"))
    (List.mem_cons_self _ _)
  exact h.2.2.2

end Billing
